import Mathlib

/-!
Shallow embedding of the valuation programs in `valuation_app.py`,
`valuation_app_table.py` and `valuation_linear.py`.

Numbers are modelled as exact rationals (`ℚ`); the programs place no
numerical-precision requirement beyond ordinary arithmetic.  the Python
`round` builtin (round half to even) is modelled by `pyRound`, the Python
`int()` truncation by `pyInt`.  A Python division that can raise
`ZeroDivisionError` is modelled, where a claim is about that failure, by
an `Option`-valued variant where `none` stands for the raised exception.
-/

/-- Models the Python builtin `round(q)`: round half to even. -/
def pyRound (q : ℚ) : ℤ :=
  if q - ⌊q⌋ = 1/2 then (if ⌊q⌋ % 2 = 0 then ⌊q⌋ else ⌊q⌋ + 1) else round q

/-- Models the Python builtin `round(q, 2)`: round to two decimal places. -/
def pyRound2 (q : ℚ) : ℚ := (pyRound (100 * q) : ℚ) / 100

/-- Models the Python builtin `int(q)`: truncation toward zero. -/
def pyInt (q : ℚ) : ℤ := if 0 ≤ q then ⌊q⌋ else ⌈q⌉

/-- Models Python division `a / b`, with a raised `ZeroDivisionError` as `none`. -/
def pyDiv (a b : ℚ) : Option ℚ := if b = 0 then none else some (a / b)

/-! ## valuation_app.py (charting variant) -/

/-- Embeds `calculate_scaling_factor` of valuation_app.py (lines 6-9). -/
def calculate_scaling_factor (examples : List (ℚ × ℚ × ℚ)) : ℚ :=
  let computed_prices := examples.map (fun x => 0.3 * x.1 + 0.7 * x.2.1)
  let scale_factors := (computed_prices.zip examples).map (fun y => y.2.2.2 / y.1)
  scale_factors.sum / scale_factors.length

/-- Embeds `determine_weights` of valuation_app.py (lines 47-61). -/
def determine_weights (ebit_percentage : ℚ) : ℚ × ℚ :=
  if ebit_percentage < 3 then (0.9, 0.1)
  else if ebit_percentage < 5 then (0.7, 0.3)
  else if ebit_percentage < 10 then (0.5, 0.5)
  else if ebit_percentage < 30 then (0.3, 0.7)
  else if ebit_percentage < 40 then (0.2, 0.8)
  else if ebit_percentage < 50 then (0.1, 0.9)
  else (0.05, 0.95)

/-- Embeds `cap_maximum_price` of valuation_app.py (lines 25-27). -/
def cap_maximum_price (price : ℚ) : ℚ := min price 2025

/-- Embeds `calculate_variation` of valuation_app.py (lines 44-45). -/
def calculate_variation (current minimum : ℚ) : ℚ := |current - minimum| / minimum

/-- Embeds `enforce_minimum_price` of valuation_app.py (lines 29-42). -/
def enforce_minimum_price (price ebit revenue : ℚ) : ℚ :=
  let ebit_variation := calculate_variation ebit 230
  let revenue_variation := calculate_variation revenue 2300
  if price < 900 then
    if ebit_variation ≤ 0.15 ∧ revenue_variation ≤ 0.15 then 900
    else max 300 price
  else price

/-- Embeds `apply_price_constraints` of valuation_app.py (lines 20-23). -/
def apply_price_constraints (price ebit revenue : ℚ) : ℚ :=
  enforce_minimum_price (cap_maximum_price price) ebit revenue

/-- Embeds `calculate_price` of valuation_app.py (lines 11-18): returns the rounded
price together with the diagnostics (ebit percentage, both weights, scale
factor). -/
def calculate_price (ebit revenue scale_factor : ℚ) : ℚ × ℚ × ℚ × ℚ × ℚ :=
  let ebit_percentage := ebit / revenue * 100
  let w := determine_weights ebit_percentage
  let base_price := (w.1 * ebit + w.2 * revenue) * scale_factor
  let price := apply_price_constraints base_price ebit revenue
  (pyRound2 price, ebit_percentage, w.1, w.2, scale_factor)

/-- Variant of `calculate_price` of valuation_app.py with Python division semantics:
`ebit / revenue` raises `ZeroDivisionError` (modelled as `none`) when
`revenue = 0`. -/
def calculate_priceE (ebit revenue scale_factor : ℚ) :
    Option (ℚ × ℚ × ℚ × ℚ × ℚ) :=
  (pyDiv ebit revenue).map (fun q =>
    let ebit_percentage := q * 100
    let w := determine_weights ebit_percentage
    let base_price := (w.1 * ebit + w.2 * revenue) * scale_factor
    let price := apply_price_constraints base_price ebit revenue
    (pyRound2 price, ebit_percentage, w.1, w.2, scale_factor))

/-- Collects a list of fallible results, aborting at the first failure, as
the list comprehension of the source would abort at the first raised
exception. -/
def sequenceOption : List (Option ℚ) → Option (List ℚ)
  | [] => some []
  | none :: _ => none
  | some q :: t => (sequenceOption t).map (fun l => q :: l)

/-- Variant of `calculate_scaling_factor` with Python division semantics: each ratio
`price / computed` and the final mean raise `ZeroDivisionError` (modelled
as `none`) on a zero divisor. -/
def calculate_scaling_factorE (examples : List (ℚ × ℚ × ℚ)) : Option ℚ :=
  let computed_prices := examples.map (fun x => 0.3 * x.1 + 0.7 * x.2.1)
  (sequenceOption
      ((computed_prices.zip examples).map (fun y => pyDiv y.2.2.2 y.1))).bind
    (fun scale_factors => pyDiv scale_factors.sum scale_factors.length)

/-- The fixed calibration example set used by both `main` functions
(valuation_app.py line 155, valuation_app_table.py line 48). -/
def defaultExamples : List (ℚ × ℚ × ℚ) :=
  [(230, 2300, 900), (350, 3500, 1350), (525, 5250, 2025)]

/-! ## valuation_app_table.py (table variant, class EarnoutModel)

The constructor stores `examples` and computes `scale_factor` from them
once; the methods are modelled as functions of the example list. -/

namespace EarnoutModel

/-- Embeds `EarnoutModel.calculate_scaling_factor` (valuation_app_table.py lines 9-12). -/
def calculate_scaling_factor (examples : List (ℚ × ℚ × ℚ)) : ℚ :=
  let computed_prices := examples.map (fun x => 0.3 * x.1 + 0.7 * x.2.1)
  let scale_factors := (computed_prices.zip examples).map (fun y => y.2.2.2 / y.1)
  scale_factors.sum / scale_factors.length

/-- Embeds `EarnoutModel.determine_weights` (valuation_app_table.py lines 30-44). -/
def determine_weights (ebit_percentage : ℚ) : ℚ × ℚ :=
  if ebit_percentage < 3 then (0.9, 0.1)
  else if ebit_percentage < 5 then (0.7, 0.3)
  else if ebit_percentage < 10 then (0.5, 0.5)
  else if ebit_percentage < 30 then (0.3, 0.7)
  else if ebit_percentage < 40 then (0.2, 0.8)
  else if ebit_percentage < 50 then (0.1, 0.9)
  else (0.05, 0.95)

/-- Embeds `EarnoutModel.apply_price_constraints` (valuation_app_table.py lines 21-23):
`min_price = max(300, price); return max(min(price, 2025), min_price)`. -/
def apply_price_constraints (price : ℚ) : ℚ :=
  let min_price := max 300 price
  max (min price 2025) min_price

/-- Embeds `EarnoutModel.calculate_price` (valuation_app_table.py lines 14-19), with
`self.scale_factor` as computed by the constructor from `examples`. -/
def calculate_price (examples : List (ℚ × ℚ × ℚ)) (ebit revenue : ℚ) : ℤ :=
  let scale_factor := calculate_scaling_factor examples
  let ebit_percentage := ebit / revenue * 100
  let w := determine_weights ebit_percentage
  let base_price := (w.1 * ebit + w.2 * revenue) * scale_factor
  let price := apply_price_constraints base_price
  pyRound price

end EarnoutModel

/-- The arithmetic mean of knownPrice / (0.3·ebit + 0.7·revenue) over the
examples, as the spec words the scaling factor; to be compared with
`calculate_scaling_factor` as translated from the source. -/
def meanOfRatios (examples : List (ℚ × ℚ × ℚ)) : ℚ :=
  (examples.map (fun x => x.2.2 / (0.3 * x.1 + 0.7 * x.2.1))).sum /
    examples.length

/-! ## valuation_linear.py (linear-regression variant)

`Config` holds only constants; its fields are modelled as plain
definitions.  `ValuationModel.__init__` computes the two slope/intercept
pairs once from the config arrays. -/

namespace ValuationLinear

/-- Embeds `Config.ebit_values` (valuation_linear.py line 7). -/
def ebit_values : List ℚ := [220, 350, 550]

/-- Embeds `Config.revenue_values` (valuation_linear.py line 8). -/
def revenue_values : List ℚ := [2200, 3500, 5500]

/-- Embeds `Config.valuation_values` (valuation_linear.py line 9). -/
def valuation_values : List ℚ := [800, 1350, 2020]

/-- Embeds `Config.specific_combinations` (valuation_linear.py line 15), as a
partial lookup on exact input pairs. -/
def specific_combinations (ebit revenue : ℚ) : Option ℤ :=
  if ebit = 0 ∧ revenue = 0 then some 750
  else if ebit = 220 ∧ revenue = 2200 then some 800
  else if ebit = 350 ∧ revenue = 3500 then some 1350
  else if ebit = 550 ∧ revenue = 5500 then some 2020
  else none

/-- Embeds `ValuationModel.calculate_slope_intercept` (valuation_linear.py lines
47-51), on the element-wise sums the numpy expressions compute. -/
def calculate_slope_intercept (x y : List ℚ) : ℚ × ℚ :=
  let n : ℚ := x.length
  let sxy := ((x.zip y).map (fun p => p.1 * p.2)).sum
  let sx := x.sum
  let sy := y.sum
  let sx2 := (x.map (fun a => a ^ 2)).sum
  let m := (n * sxy - sx * sy) / (n * sx2 - sx ^ 2)
  let c := (sy - m * sx) / n
  (m, c)

/-- Embeds the pair `self.m_ebit, self.c_ebit` (valuation_linear.py line 44). -/
def ebit_fit : ℚ × ℚ := calculate_slope_intercept ebit_values valuation_values

/-- Embeds the pair `self.m_revenue, self.c_revenue` (valuation_linear.py line 45). -/
def revenue_fit : ℚ × ℚ :=
  calculate_slope_intercept revenue_values valuation_values

/-- Embeds `ValuationModel.calculate_valuation` (valuation_linear.py lines 53-68),
with the one input-dependent division (`ebit / revenue if revenue != 0
else 0`, line 64) modelled through `pyDiv` so that a raised
`ZeroDivisionError` would surface as `none`. -/
def calculate_valuation (ebit revenue : ℚ) : Option ℤ :=
  match specific_combinations ebit revenue with
  | some v => some v
  | none =>
    let e := min ebit 750
    let r := min revenue 5500
    let valuation_ebit := ebit_fit.1 * e + ebit_fit.2
    let valuation_revenue := revenue_fit.1 * r + revenue_fit.2
    let valuation := (valuation_ebit + valuation_revenue) / 2
    (if r ≠ 0 then pyDiv e r else some 0).map (fun ebit_ratio =>
      let v := if ebit_ratio < 0.09 then min valuation (3.7 * e) else valuation
      max 750 (pyInt (min v 2020)))

end ValuationLinear

/-! ## Helper lemmas -/

/-- Zipping a mapped copy of a list with the list itself and dividing the
known price by the computed estimate is a single map over the list. -/
lemma zip_map_div (l : List (ℚ × ℚ × ℚ)) (f : ℚ × ℚ × ℚ → ℚ) :
    ((l.map f).zip l).map (fun y => y.2.2.2 / y.1)
      = l.map (fun x => x.2.2 / f x) := by
  induction l with
  | nil => rfl
  | cons a t ih => simp [List.zip_cons_cons, ih]

/-- An integer lower bound on a rational is a lower bound on its
half-to-even rounding. -/
lemma le_pyRound (n : ℤ) (q : ℚ) (h : (n : ℚ) ≤ q) : n ≤ pyRound q := by
  unfold pyRound
  have hf : n ≤ ⌊q⌋ := Int.le_floor.mpr h
  split_ifs with h1 h2
  · exact hf
  · omega
  · rw [round_eq]
    exact Int.le_floor.mpr (by linarith)

/-- An integer upper bound on a rational is an upper bound on its
half-to-even rounding. -/
lemma pyRound_le (n : ℤ) (q : ℚ) (h : q ≤ (n : ℚ)) : pyRound q ≤ n := by
  unfold pyRound
  split_ifs with h1 h2
  · exact_mod_cast (Int.floor_le q).trans h
  · have hq : (⌊q⌋ : ℚ) < (n : ℚ) := by linarith
    have : ⌊q⌋ < n := by exact_mod_cast hq
    omega
  · rw [round_eq]
    have : ⌊q + 1/2⌋ < n + 1 :=
      Int.floor_lt.mpr (by push_cast; linarith)
    omega

/-- The constrained price of the charting variant always lies in the
interval [300, 2025]. -/
lemma apply_price_constraints_mem (b e r : ℚ) :
    300 ≤ apply_price_constraints b e r ∧ apply_price_constraints b e r ≤ 2025 := by
  simp only [apply_price_constraints, enforce_minimum_price]
  have hcap : cap_maximum_price b ≤ 2025 := min_le_right b 2025
  by_cases h1 : cap_maximum_price b < 900
  · rw [if_pos h1]
    by_cases h2 : calculate_variation e 230 ≤ 0.15 ∧ calculate_variation r 2300 ≤ 0.15
    · rw [if_pos h2]; norm_num
    · rw [if_neg h2]
      exact ⟨le_max_left 300 _, max_le (by norm_num) hcap⟩
  · rw [if_neg h1]
    exact ⟨by linarith [not_lt.mp h1], hcap⟩

/-- Rounding to two decimals keeps a value of [300, 2025] inside
[300, 2025]. -/
lemma pyRound2_mem (q : ℚ) (h1 : 300 ≤ q) (h2 : q ≤ 2025) :
    300 ≤ pyRound2 q ∧ pyRound2 q ≤ 2025 := by
  unfold pyRound2
  have hlo : (30000 : ℤ) ≤ pyRound (100 * q) :=
    le_pyRound 30000 (100 * q) (by push_cast; linarith)
  have hhi : pyRound (100 * q) ≤ (202500 : ℤ) :=
    pyRound_le 202500 (100 * q) (by push_cast; linarith)
  constructor
  · rw [le_div_iff₀ (by norm_num : (0:ℚ) < 100)]
    exact_mod_cast hlo
  · rw [div_le_iff₀ (by norm_num : (0:ℚ) < 100)]
    exact_mod_cast hhi

/-- Rounding the exact value 900 to two decimals returns 900. -/
lemma pyRound2_900 : pyRound2 900 = 900 := by norm_num [pyRound2, pyRound]

/-! ## Claim theorems -/

/-- Claim C1: for every non-empty list of calibration examples whose naive
estimates 0.3·ebit + 0.7·revenue are all non-zero, the scaling factor
returned by `calculate_scaling_factor` (identically in both variants)
equals the arithmetic mean of knownPrice/(0.3·ebit + 0.7·revenue) over
the examples, and on the fixed example set (230,2300,900), (350,3500,1350),
(525,5250,2025) it equals (900/1679 + 1350/2555 + 2025/3832.5)/3. -/
theorem scaling_factor_is_mean_of_ratios (l : List (ℚ × ℚ × ℚ))
    (_h1 : l ≠ []) (_h2 : ∀ x ∈ l, 0.3 * x.1 + 0.7 * x.2.1 ≠ 0) :
    calculate_scaling_factor l = meanOfRatios l ∧
    EarnoutModel.calculate_scaling_factor l = calculate_scaling_factor l ∧
    calculate_scaling_factor defaultExamples
      = (900 / 1679 + 1350 / 2555 + 2025 / 3832.5) / 3 := by
  refine ⟨?_, rfl, by norm_num [calculate_scaling_factor, defaultExamples]⟩
  simp only [calculate_scaling_factor, meanOfRatios, zip_map_div,
    List.length_map]

/-- Witness for C1 at the fixed calibration example set. -/
theorem scaling_factor_is_mean_of_ratios_witness :
    defaultExamples ≠ [] ∧
    (∀ x ∈ defaultExamples, 0.3 * x.1 + 0.7 * x.2.1 ≠ 0) ∧
    (calculate_scaling_factor defaultExamples = meanOfRatios defaultExamples ∧
      EarnoutModel.calculate_scaling_factor defaultExamples
        = calculate_scaling_factor defaultExamples ∧
      calculate_scaling_factor defaultExamples
        = (900 / 1679 + 1350 / 2555 + 2025 / 3832.5) / 3) :=
  ⟨by simp [defaultExamples], by norm_num [defaultExamples],
    scaling_factor_is_mean_of_ratios defaultExamples (by simp [defaultExamples])
      (by norm_num [defaultExamples])⟩

/-- Claim C2 counterexample: in the table variant the price is not capped
at 2025: for ebit = 1000, revenue = 10000 and the fixed example set, the
returned price is 3876, which exceeds 2025. -/
theorem table_price_exceeds_cap :
    EarnoutModel.calculate_price defaultExamples 1000 10000 = 3876 ∧
    ¬EarnoutModel.calculate_price defaultExamples 1000 10000 ≤ 2025 := by
  norm_num [EarnoutModel.calculate_price, EarnoutModel.calculate_scaling_factor,
    EarnoutModel.determine_weights, EarnoutModel.apply_price_constraints,
    defaultExamples, pyRound, round_eq, min_def, max_def]

/-- Claim C2 (amended): for every (ebit, revenue) with revenue non-zero, the
charting variant returns a price within [300, 2025]; the table variant
returns a price that is at least 300 but, because its
`apply_price_constraints` returns `max (min price 2025) (max 300 price)`,
it is not bounded above by 2025. -/
theorem price_within_bounds (ex : List (ℚ × ℚ × ℚ)) (e r sf : ℚ)
    (_h : r ≠ 0) :
    300 ≤ (calculate_price e r sf).1 ∧ (calculate_price e r sf).1 ≤ 2025 ∧
    300 ≤ EarnoutModel.calculate_price ex e r := by
  have hb := apply_price_constraints_mem
    (((determine_weights (e / r * 100)).1 * e
      + (determine_weights (e / r * 100)).2 * r) * sf) e r
  have hq := pyRound2_mem _ hb.1 hb.2
  refine ⟨hq.1, hq.2, ?_⟩
  have h300 : (300:ℚ) ≤ EarnoutModel.apply_price_constraints
      (((EarnoutModel.determine_weights (e / r * 100)).1 * e
        + (EarnoutModel.determine_weights (e / r * 100)).2 * r)
        * EarnoutModel.calculate_scaling_factor ex) := by
    simp only [EarnoutModel.apply_price_constraints]
    exact le_trans (le_max_left 300 _) (le_max_right _ _)
  exact le_pyRound 300 _ h300

/-- Witness for the amended claim C2 at ebit 230, revenue 2300, scale
factor 1 and the fixed example set. -/
theorem price_within_bounds_witness :
    (2300:ℚ) ≠ 0 ∧
    (300 ≤ (calculate_price 230 2300 1).1 ∧
      (calculate_price 230 2300 1).1 ≤ 2025 ∧
      300 ≤ EarnoutModel.calculate_price defaultExamples 230 2300) :=
  ⟨by norm_num, price_within_bounds defaultExamples 230 2300 1 (by norm_num)⟩

/-- Claim C3: in the charting variant, with base price as computed from the
weights and the scale factor and capped price = min(base, 2025): if the
capped price is below 900 and both variations from the calibration
minimums are at most 0.15 the constrained price (and the returned price,
before and after rounding) is 900; if the capped price is below 900 and
some variation exceeds 0.15 the result is max(300, capped); otherwise the
capped price is returned unchanged. -/
theorem chart_constraint_cases (e r sf base capped : ℚ) (_h : r ≠ 0)
    (hbase : base = ((determine_weights (e / r * 100)).1 * e
        + (determine_weights (e / r * 100)).2 * r) * sf)
    (hcap : capped = cap_maximum_price base) :
    (capped < 900 → calculate_variation e 230 ≤ 0.15 →
        calculate_variation r 2300 ≤ 0.15 →
        apply_price_constraints base e r = 900 ∧
          (calculate_price e r sf).1 = 900) ∧
    (capped < 900 →
        (0.15 < calculate_variation e 230 ∨ 0.15 < calculate_variation r 2300) →
        apply_price_constraints base e r = max 300 capped) ∧
    (900 ≤ capped → apply_price_constraints base e r = capped) := by
  subst hcap
  refine ⟨fun h1 h2 h3 => ?_, fun h1 h2 => ?_, fun h1 => ?_⟩
  · have hres : apply_price_constraints base e r = 900 := by
      simp only [apply_price_constraints, enforce_minimum_price]
      rw [if_pos h1, if_pos ⟨h2, h3⟩]
    have hfst : (calculate_price e r sf).1
        = pyRound2 (apply_price_constraints base e r) := by
      rw [hbase]; rfl
    exact ⟨hres, by rw [hfst, hres, pyRound2_900]⟩
  · simp only [apply_price_constraints, enforce_minimum_price]
    rw [if_pos h1,
      if_neg (by rintro ⟨ha, hb⟩; rcases h2 with h2 | h2 <;> linarith)]
  · simp only [apply_price_constraints, enforce_minimum_price]
    rw [if_neg (not_lt.mpr h1)]

/-- Witness for C3 at ebit 230, revenue 2300 and the computed scale factor,
where the base price 1679·(6240/11753) ≈ 891.4 falls below 900 with zero
variation, so the floor of 900 applies. -/
theorem chart_constraint_cases_witness :
    (2300:ℚ) ≠ 0 ∧
    apply_price_constraints (1679 * (6240 / 11753)) 230 2300 = 900 ∧
    (calculate_price 230 2300 (6240 / 11753)).1 = 900 := by
  have h := chart_constraint_cases 230 2300 (6240 / 11753)
    (1679 * (6240 / 11753)) (cap_maximum_price (1679 * (6240 / 11753)))
    (by norm_num) (by norm_num [determine_weights]) rfl
  have hc : cap_maximum_price (1679 * (6240 / 11753) : ℚ) < 900 := by
    norm_num [cap_maximum_price, min_def]
  have h2 : calculate_variation (230:ℚ) 230 ≤ 0.15 := by
    norm_num [calculate_variation]
  have h3 : calculate_variation (2300:ℚ) 2300 ≤ 0.15 := by
    norm_num [calculate_variation]
  exact ⟨by norm_num, (h.1 hc h2 h3).1, (h.1 hc h2 h3).2⟩

/-- Claim C4 counterexample: at an EBIT percentage of exactly 10,
`determine_weights` does not return the 5-10% bucket weights (0.5, 0.5):
the strict `< 10` comparison sends 10 to the next bucket. -/
theorem determine_weights_at_ten_not_half :
    determine_weights 10 ≠ (0.5, 0.5) := by
  norm_num [determine_weights]

/-- Claim C4 (amended): for an EBIT percentage exactly equal to 10, both
variants of `determine_weights` return the 10-30% bucket weights
(0.3, 0.7), per the strict `< 10` boundary. -/
theorem determine_weights_at_ten :
    determine_weights 10 = (0.3, 0.7) ∧
    EarnoutModel.determine_weights 10 = (0.3, 0.7) := by
  norm_num [determine_weights, EarnoutModel.determine_weights]

/-- Claim C5: under Python division semantics, `calculate_price` at
revenue = 0 and `calculate_scaling_factor` on an example with zero naive
estimate (0.3·7 + 0.7·(-3) = 0) both end in a raised, unhandled
`ZeroDivisionError` (modelled as `none`) — no domain error value is
signalled by the code. -/
theorem zero_division_raises :
    calculate_priceE 230 0 (6240 / 11753) = none ∧
    calculate_scaling_factorE [(7, -3, 100)] = none := by
  constructor
  · simp [calculate_priceE, pyDiv]
  · norm_num [calculate_scaling_factorE, pyDiv, sequenceOption]

/-- Claim C6: for every EBIT percentage, the two weights returned by
`determine_weights` sum to exactly 1, in both variants. -/
theorem weights_sum_to_one (p : ℚ) :
    (determine_weights p).1 + (determine_weights p).2 = 1 ∧
    (EarnoutModel.determine_weights p).1 + (EarnoutModel.determine_weights p).2 = 1 := by
  unfold determine_weights EarnoutModel.determine_weights
  split_ifs <;> norm_num

/-- Claim C7: the charting variant returns the constrained price rounded to
two decimal places (a multiple of 1/100, via half-to-even rounding of 100
times the constrained price), while the table variant returns the
constrained price rounded to an integer; the caller selects the rounding
by choosing the variant. -/
theorem price_rounding_modes (ex : List (ℚ × ℚ × ℚ)) (e r sf : ℚ) :
    (calculate_price e r sf).1
      = pyRound2 (apply_price_constraints
          (((determine_weights (e / r * 100)).1 * e
            + (determine_weights (e / r * 100)).2 * r) * sf) e r) ∧
    (∃ n : ℤ, (calculate_price e r sf).1 = (n : ℚ) / 100) ∧
    EarnoutModel.calculate_price ex e r
      = pyRound (EarnoutModel.apply_price_constraints
          (((EarnoutModel.determine_weights (e / r * 100)).1 * e
            + (EarnoutModel.determine_weights (e / r * 100)).2 * r)
            * EarnoutModel.calculate_scaling_factor ex)) :=
  ⟨rfl,
    ⟨pyRound (100 * apply_price_constraints
        (((determine_weights (e / r * 100)).1 * e
          + (determine_weights (e / r * 100)).2 * r) * sf) e r), rfl⟩,
    rfl⟩

/-- Claim C8: `calculate_price` is deterministic in both variants — for a
fixed scale factor (fixed example set in the table variant), equal inputs
yield equal results, diagnostics included. -/
theorem price_deterministic (ex : List (ℚ × ℚ × ℚ)) (e r sf e2 r2 sf2 : ℚ)
    (he : e = e2) (hr : r = r2) (hs : sf = sf2) :
    calculate_price e r sf = calculate_price e2 r2 sf2 ∧
    EarnoutModel.calculate_price ex e r = EarnoutModel.calculate_price ex e2 r2 := by
  subst he; subst hr; subst hs
  exact ⟨rfl, rfl⟩

/-- Witness for C8 at ebit 230, revenue 2300, scale factor 1. -/
theorem price_deterministic_witness :
    (230:ℚ) = 230 ∧ (2300:ℚ) = 2300 ∧ (1:ℚ) = 1 ∧
    (calculate_price 230 2300 1 = calculate_price 230 2300 1 ∧
      EarnoutModel.calculate_price defaultExamples 230 2300
        = EarnoutModel.calculate_price defaultExamples 230 2300) :=
  ⟨rfl, rfl, rfl,
    price_deterministic defaultExamples 230 2300 1 230 2300 1 rfl rfl rfl⟩

/-- Claim C9: in the linear-regression variant, `calculate_valuation` is
total at revenue = 0 under Python division semantics: for every ebit the
guarded EBIT ratio (0 when revenue = 0) avoids the division, a value is
returned, and the input (0, 0) is answered as 750 directly from the
specific-combinations table. -/
theorem linear_total_at_zero_revenue (ebit : ℚ) :
    (ValuationLinear.calculate_valuation ebit 0).isSome = true ∧
    ValuationLinear.calculate_valuation 0 0 = some 750 := by
  constructor
  · unfold ValuationLinear.calculate_valuation
    cases hs : ValuationLinear.specific_combinations ebit 0 with
    | some v => simp
    | none =>
      have hmin : (min (0:ℚ) 5500) = 0 := by norm_num
      simp [hmin]
  · norm_num [ValuationLinear.calculate_valuation,
      ValuationLinear.specific_combinations]

/-- Claim C10: `determine_weights` is monotone in the EBIT percentage in
both variants: as the percentage grows the EBIT weight never increases
and the revenue weight never decreases. -/
theorem weights_monotone (p1 p2 : ℚ) (h : p1 ≤ p2) :
    (determine_weights p2).1 ≤ (determine_weights p1).1 ∧
    (determine_weights p1).2 ≤ (determine_weights p2).2 ∧
    (EarnoutModel.determine_weights p2).1 ≤ (EarnoutModel.determine_weights p1).1 ∧
    (EarnoutModel.determine_weights p1).2 ≤ (EarnoutModel.determine_weights p2).2 := by
  unfold determine_weights EarnoutModel.determine_weights
  split_ifs <;> refine ⟨?_, ?_, ?_, ?_⟩ <;> norm_num <;> linarith

/-- Witness for C10 at percentages 4 and 27. -/
theorem weights_monotone_witness :
    (4:ℚ) ≤ 27 ∧
    ((determine_weights 27).1 ≤ (determine_weights 4).1 ∧
      (determine_weights 4).2 ≤ (determine_weights 27).2 ∧
      (EarnoutModel.determine_weights 27).1 ≤ (EarnoutModel.determine_weights 4).1 ∧
      (EarnoutModel.determine_weights 4).2 ≤ (EarnoutModel.determine_weights 27).2) :=
  ⟨by norm_num, weights_monotone 4 27 (by norm_num)⟩
